import Mathlib

/-!
Shallow embedding of `src/Project/banking.py` (SimpleBankingSystem).

The persistent SQLite table `card (number UNIQUE, pin, balance)` is embedded
as a list of records; each SQL statement the program issues is embedded as a
function on that list, following the statement text.  Python exceptions that
escape an operation are embedded as `Except`/`Option` error results.
-/

deriving instance DecidableEq for Except

namespace Banking

/-- One row of the `card` table: `number TEXT NOT NULL UNIQUE`,
`pin TEXT NOT NULL`, `balance INTEGER DEFAULT 0 NOT NULL`.
The auto-increment `id` column is never read by the program and is omitted. -/
structure CardRecord where
  number : String
  pin : String
  balance : Int
deriving DecidableEq

/-- The `card` table.  The schema declares `number` UNIQUE; theorems that
need it take that as an explicit hypothesis. -/
abbrev Store := List CardRecord

/-- Sum of all balances in the table (the "total system balance"). -/
def storeTotal (s : Store) : Int := (s.map (fun r => r.balance)).sum

/-- SQLite `LIKE` pattern matching, as used by the two `UPDATE ... WHERE
number LIKE (?)` statements in `BankingSystem.get_update`: `%` matches any
run of characters, `_` matches one character, anything else matches itself.
(SQLite LIKE is additionally case-insensitive on ASCII letters; the patterns
the program passes are card numbers, which contain no letters, so
case-folding is not modelled.) -/
def likeMatch : List Char → List Char → Bool
  | [], s => s.isEmpty
  | p :: ps, s =>
    if p = '%' then s.tails.any (fun t => likeMatch ps t)
    else
      match s with
      | [] => false
      | c :: t => (if p = '_' then true else p == c) && likeMatch ps t

/-- A string free of the LIKE metacharacters `%` and `_`; for such a
pattern, `likeMatch` is plain string equality. -/
def noWildcards (s : String) : Bool :=
  s.toList.all (fun c => !(c = '%') && !(c = '_'))

/-- Python `int(c)` on a one-character string: the digit value for an ASCII
digit, and a `ValueError` (embedded as `none`) otherwise. -/
def pyInt (c : Char) : Option Nat :=
  if c.isDigit then some (c.toNat - 48) else none

/-- The loop body of `BankingSystem.luhn_algorithm`: walking
`enumerate(number, 1)`, a digit at even 1-based position `x` is kept, and a
digit at odd position is replaced by its double, minus 9 when the double is
10 or more. -/
def luhn_transform : Nat → List Nat → List Nat
  | _, [] => []
  | x, num :: rest =>
    (if x % 2 == 0 then num
     else
       let n := num * 2
       if n < 10 then n else n - 9) :: luhn_transform (x + 1) rest

/-- `BankingSystem.luhn_algorithm(card_number)`: converts every character
with `int(...)` (a non-digit character raises `ValueError`, embedded as
`none`), applies the positional doubling, and tests the sum against mod 10. -/
def luhn_algorithm (card_number : String) : Option Bool :=
  (card_number.toList.mapM pyInt).map
    (fun number => (luhn_transform 1 number).sum % 10 == 0)

/-- The doubling step as worded in the specification: double the digit and
subtract 9 when the doubled value exceeds 9. -/
def luhnDouble (d : Nat) : Nat :=
  if d * 2 > 9 then d * 2 - 9 else d * 2

/-- Checksum sum as worded in the specification (1-indexed from the left):
odd-position digits are doubled with the 9-correction, even-position digits
enter unchanged. -/
def luhnSpecSum : List Nat → Nat
  | [] => 0
  | [d] => luhnDouble d
  | d :: e :: rest => luhnDouble d + e + luhnSpecSum rest

/-- `is_valid` as worded in the specification: the corrected sum is
divisible by 10. -/
def is_valid_spec (digits : List Nat) : Bool :=
  luhnSpecSum digits % 10 == 0

/-- Python `str(d)` for a digit drawn by `randint(0, 9)`. -/
def digitChar (d : Nat) : Char := Char.ofNat (48 + d)

/-- One iteration of the retry loop in `BankingSystem.generate_numbers`:
`random_card` joins the issuer digits `400000` with eleven `randint(0, 9)`
draws, `random_PIN` joins four draws; the pair is returned when
`random_card` passes `luhn_algorithm`, and `none` stands for the `continue`
that redraws. -/
def generate_attempt (cardDraws pinDraws : List Nat) : Option (String × String) :=
  let random_card : String := "400000" ++ String.mk (cardDraws.map digitChar)
  let random_PIN : String := String.mk (pinDraws.map digitChar)
  if luhn_algorithm random_card = some true then some (random_card, random_PIN)
  else none

/-- Column list of the INSERT statement in `BankingSystem.database`:
`INSERT OR IGNORE INTO card (number, pin)`. -/
def databaseInsertColumns : List String := ["number", "pin"]

/-- Number of `?` placeholders in that statement: `VALUES (?, ?, ?)`. -/
def databaseInsertPlaceholders : Nat := 3

/-- `BankingSystem.database(card, pin)` with a non-empty `card`: executes
`INSERT OR IGNORE INTO card (number, pin) VALUES (?, ?, ?)` with the two
parameters `(card, pin)`.  SQLite refuses to prepare an INSERT whose VALUES
arity differs from its column-list arity ("3 values for 2 columns", raised
as `sqlite3.OperationalError`), so the call errors and writes nothing.
Were the arities equal, INSERT OR IGNORE would add the row
`{number, pin, balance = 0}` when no row with that number exists (the
UNIQUE constraint) and leave the table unchanged otherwise. -/
def database (s : Store) (card pin : String) : Except String Store :=
  if databaseInsertPlaceholders ≠ databaseInsertColumns.length then
    Except.error "3 values for 2 columns"
  else if s.any (fun r => r.number == card) then Except.ok s
  else Except.ok (s ++ [{ number := card, pin := pin, balance := 0 }])

/-- `BankingSystem.check_credentials(card, pin)`:
`SELECT pin FROM card WHERE number = (?) AND pin = (?)` followed by
`bool(cursor.fetchone())`. -/
def check_credentials (s : Store) (card pin : String) : Bool :=
  (s.find? (fun r => r.number == card && r.pin == pin)).isSome

/-- The session state reached by `Account.__enter__`. -/
inductive SessionState where
  | unauthenticated
  | authenticated
deriving DecidableEq

/-- The message of the `ValueError` raised by `Account.__enter__` on a bad
credential pair. -/
def wrongCredentialsMsg : String := "Wrong card number or PIN.\n"

/-- `Account.__enter__`: raises `ValueError` (embedded as `Except.error`)
unless `check_credentials` holds for the supplied pair, in which case the
session proceeds authenticated. -/
def accountEnter (s : Store) (card pin : String) : Except String SessionState :=
  if check_credentials s card pin then Except.ok SessionState.authenticated
  else Except.error wrongCredentialsMsg

/-- `Account.exists(card)`:
`SELECT number FROM card WHERE number = (?)` followed by `bool(fetchone())`. -/
def existsCard (s : Store) (card : String) : Bool :=
  (s.find? (fun r => r.number == card)).isSome

/-- `Account.balance()`:
`SELECT balance FROM card WHERE number = (?)`, then `fetchone()[0]`.  When
no row matches, `fetchone()` is `None` and the subscript raises `TypeError`;
that is embedded as `none`. -/
def balance (s : Store) (card : String) : Option Int :=
  (s.find? (fun r => r.number == card)).map (fun r => r.balance)

/-- `Account.add_balance(balance)`:
`UPDATE card SET balance = (balance + ?) WHERE number = (?)`, then the
string returned to the menu, which prints it. -/
def add_balance (s : Store) (card : String) (delta : Int) : String × Store :=
  ("Income was added!",
   s.map (fun r =>
     if r.number == card then { r with balance := r.balance + delta } else r))

/-- `Account.close_account()`: `DELETE FROM card WHERE number = (?)`. -/
def close_account (s : Store) (card : String) : Store :=
  s.filter (fun r => !(r.number == card))

/-- One `UPDATE card SET balance = (balance + delta) WHERE number LIKE
(pattern)` statement, as issued by `BankingSystem.get_update`. -/
inductive DbStmt where
  | updateAdd (pattern : String) (delta : Int)
deriving DecidableEq

/-- Executes one such UPDATE against the table: every row whose `number`
matches the LIKE pattern has `delta` added to its balance. -/
def execStmt (s : Store) : DbStmt → Store
  | DbStmt.updateAdd pattern delta =>
    s.map (fun r =>
      if likeMatch pattern.toList r.number.toList then
        { r with balance := r.balance + delta }
      else r)

/-- The two UPDATE statements of `BankingSystem.get_update(From, to,
amount)`, in the order the source executes them: first
`balance = (balance + ?)` on rows matching `toCard`, then
`balance = (balance - ?)` on rows matching `From`. -/
def get_update_script (From toCard : String) (amount : Int) : List DbStmt :=
  [DbStmt.updateAdd toCard amount, DbStmt.updateAdd From (-amount)]

/-- `BankingSystem.get_update(From, to, amount)`: when both card strings
are truthy (non-empty), runs the two UPDATE statements and returns
the string the menu prints; otherwise no statement runs and it
falls through to the error string. -/
def get_update (s : Store) (From toCard : String) (amount : Int) : String × Store :=
  if !(From = "") && !(toCard = "") then
    ("Success!", (get_update_script From toCard amount).foldl execStmt s)
  else ("Error.", s)

/-- The distinct user-facing outcomes of the transfer branch
(choice `'3'`) of `Account.menu`, one per printed message. -/
inductive TransferOutcome where
  /-- "You can~t transfer money to the same account!" -/
  | sameAccount
  /-- "You probably made a mistake in the card number. Please try again!" -/
  | mistakeInNumber
  /-- "Such card does not exist." -/
  | noSuchCard
  /-- "Not enough money!" -/
  | notEnoughMoney
  /-- The string returned by `get_update` is printed. -/
  | completed (msg : String)
deriving DecidableEq

/-- A Python exception escaping the transfer branch. -/
inductive PyExn where
  /-- `int(...)` on a non-digit character. -/
  | valueError (msg : String)
  /-- Subscripting the `None` returned by `fetchone()` on a missing row. -/
  | typeError (msg : String)
deriving DecidableEq

/-- The transfer branch of `Account.menu` (choice `'3'`), for a session
bound to `card`, destination input `toCard` and amount input `amount`:
self-check, Luhn check (whose `int` conversion raises on a non-digit
destination), existence check, funds check (reading `balance()`, which
raises if the session row is gone), then `get_update(card, to, amount)`. -/
def transfer (s : Store) (card toCard : String) (amount : Int) :
    Except PyExn (TransferOutcome × Store) :=
  if card == toCard then Except.ok (TransferOutcome.sameAccount, s)
  else
    match luhn_algorithm toCard with
    | none => Except.error (PyExn.valueError "invalid literal for int with base 10")
    | some ok =>
      if !ok then Except.ok (TransferOutcome.mistakeInNumber, s)
      else if !existsCard s toCard then Except.ok (TransferOutcome.noSuchCard, s)
      else
        match balance s card with
        | none => Except.error (PyExn.typeError "NoneType object is not subscriptable")
        | some b =>
          if amount > b then Except.ok (TransferOutcome.notEnoughMoney, s)
          else
            Except.ok (TransferOutcome.completed (get_update s card toCard amount).1,
                       (get_update s card toCard amount).2)

/-- The store-touching operations of the system other than the deposit
(`add_balance`) and the account closure, each tagged with the inputs the
user supplies. -/
inductive Op where
  /-- `BankingSystem.database(card, pin)`, reached from `create_account`. -/
  | create (card pin : String)
  /-- `Account.__enter__` via `check_credentials`: reads only. -/
  | auth (card pin : String)
  /-- Menu choice `'1'`, `Account.balance()`: reads only. -/
  | balanceInquiry (card : String)
  /-- Menu choice `'3'`, the transfer branch. -/
  | transferOp (card toCard : String) (amount : Int)
  /-- Menu choice `'5'`: raises the logout exception, touching no row. -/
  | logout
deriving DecidableEq

/-- The table state after an operation.  A Python exception escaping the
operation (including the OperationalError every `database` call raises)
leaves the table as it was. -/
def applyOp (s : Store) : Op → Store
  | Op.create card pin =>
    match database s card pin with
    | Except.ok s2 => s2
    | Except.error _ => s
  | Op.auth _ _ => s
  | Op.balanceInquiry _ => s
  | Op.transferOp card toCard amount =>
    match transfer s card toCard amount with
    | Except.ok (_, s2) => s2
    | Except.error _ => s
  | Op.logout => s

/-- Store well-formedness guaranteed by the schema and the data model:
`number` is UNIQUE, and every stored card number is free of LIKE
metacharacters (card numbers are digit strings). -/
def storeWF (s : Store) : Prop :=
  (s.map (fun r => r.number)).Nodup ∧ ∀ r ∈ s, noWildcards r.number = true

instance (s : Store) : Decidable (storeWF s) :=
  inferInstanceAs (Decidable (_ ∧ _))

/-! ### Helper lemmas -/

/-- A LIKE pattern without metacharacters matches exactly itself. -/
theorem likeMatch_eq_of_noWild :
    ∀ (p s : List Char), (∀ c ∈ p, ¬(c = '%') ∧ ¬(c = '_')) →
      (likeMatch p s = true ↔ p = s) := by
  intro p
  induction p with
  | nil =>
    intro s _
    cases s <;> simp [likeMatch]
  | cons a ps ih =>
    intro s hw
    have ha := hw a (List.mem_cons_self a ps)
    have hps : ∀ c ∈ ps, ¬(c = '%') ∧ ¬(c = '_') :=
      fun c hc => hw c (List.mem_cons_of_mem a hc)
    cases s with
    | nil => simp [likeMatch, ha.1]
    | cons c t =>
      simp only [likeMatch, if_neg ha.1, if_neg ha.2, Bool.and_eq_true,
        beq_iff_eq, List.cons.injEq, ih t hps]

/-- String version: with no wildcards in the pattern, `likeMatch` is
equality of strings. -/
theorem likeMatch_beq (p x : String) (hw : noWildcards p = true) :
    likeMatch p.toList x.toList = (x == p) := by
  have hw2 : ∀ c ∈ p.toList, ¬(c = '%') ∧ ¬(c = '_') := by
    intro c hc
    have := (List.all_eq_true.mp hw) c hc
    constructor <;> intro h <;> simp [h] at this
  rw [Bool.eq_iff_iff, likeMatch_eq_of_noWild _ _ hw2, beq_iff_eq]
  constructor
  · intro h
    exact (String.ext h.symm)
  · intro h
    rw [h]

/-- Balance read after a conditional balance update: the balance of the
queried card is shifted exactly when its own number satisfies the update
predicate (updates never change the `number` column). -/
theorem balance_map_update (f : String → Bool) (d : Int) (s : Store) (card : String) :
    balance (s.map (fun r =>
        if f r.number then { r with balance := r.balance + d } else r)) card
      = (balance s card).map (fun b => if f card then b + d else b) := by
  unfold balance
  rw [List.find?_map]
  have hcomp :
      ((fun r : CardRecord => r.number == card) ∘
        (fun r : CardRecord =>
          if f r.number then { r with balance := r.balance + d } else r))
        = fun r : CardRecord => r.number == card := by
    funext r
    by_cases h : f r.number <;> simp [h]
  rw [hcomp]
  cases hfind : s.find? (fun r : CardRecord => r.number == card) with
  | none => simp
  | some r =>
    have hr : r.number = card := by
      have := List.find?_some hfind
      simpa using this
    by_cases hf : f card <;>
      simp [Option.map_map, Function.comp_def, hr, hf]

/-- Total balance after a conditional balance update: the total shifts by
`delta` once per matching row. -/
theorem storeTotal_map_update (f : String → Bool) (d : Int) (s : Store) :
    storeTotal (s.map (fun r =>
        if f r.number then { r with balance := r.balance + d } else r))
      = storeTotal s + d * (s.countP (fun r => f r.number) : Int) := by
  induction s with
  | nil => simp [storeTotal]
  | cons r t ih =>
    by_cases h : f r.number <;>
      simp only [storeTotal, List.map_cons, List.sum_cons, List.countP_cons,
        h, if_pos, if_neg, if_true, if_false, Bool.false_eq_true,
        not_false_iff] at ih ⊢ <;>
      rw [ih] <;> push_cast <;> ring

/-- With `number` UNIQUE, a present card number matches exactly one row. -/
theorem countP_number_eq_one (s : Store) (card : String)
    (hnd : (s.map (fun r => r.number)).Nodup)
    (hmem : ∃ r ∈ s, r.number = card) :
    s.countP (fun r => r.number == card) = 1 := by
  induction s with
  | nil => simp at hmem
  | cons r t ih =>
    rw [List.map_cons, List.nodup_cons] at hnd
    obtain ⟨hnotin, hndt⟩ := hnd
    obtain ⟨r0, hr0mem, hr0num⟩ := hmem
    rw [List.countP_cons]
    rcases List.mem_cons.mp hr0mem with heq | hmemt
    · subst heq
      have hzero : t.countP (fun r2 => r2.number == card) = 0 := by
        rw [List.countP_eq_zero]
        intro a ha hac
        rw [beq_iff_eq] at hac
        exact hnotin (hr0num ▸ hac ▸ List.mem_map_of_mem (fun r2 => r2.number) ha)
      simp [hzero, hr0num]
    · have hone := ih hndt ⟨r0, hmemt, hr0num⟩
      have hne : ¬(r.number == card) = true := by
        rw [beq_iff_eq]
        intro h
        exact hnotin (h ▸ hr0num ▸ List.mem_map_of_mem (fun r2 => r2.number) hmemt)
      simp [hone, hne]

/-- The positional transform only depends on the parity of the starting
index. -/
theorem luhn_transform_parity (l : List Nat) :
    ∀ x : Nat, luhn_transform (x + 2) l = luhn_transform x l := by
  induction l with
  | nil => intro x; rfl
  | cons num rest ih =>
    intro x
    simp only [luhn_transform, Nat.add_mod_right, ih (x + 1)]

/-- The summed positional transform, started at position 1, computes
exactly the checksum sum worded in the specification. -/
theorem luhn_transform_sum : ∀ ds : List Nat,
    (luhn_transform 1 ds).sum = luhnSpecSum ds
  | [] => rfl
  | [d] => by
    simp only [luhn_transform, luhnSpecSum, luhnDouble, List.sum_cons,
      List.sum_nil]
    norm_num
    split_ifs <;> omega
  | d :: e :: rest => by
    simp only [luhn_transform, luhnSpecSum, luhnDouble, List.sum_cons]
    have h3 : luhn_transform 3 rest = luhn_transform 1 rest :=
      luhn_transform_parity rest 1
    rw [h3, luhn_transform_sum rest]
    norm_num
    split_ifs <;> omega

/-- A successful `mapM pyInt` run forces every character to be a digit and
fixes the digit list. -/
theorem mapM_pyInt_mem :
    ∀ (l : List Char) (ds : List Nat), l.mapM pyInt = some ds →
      ∀ c ∈ l, c.isDigit = true := by
  intro l
  induction l with
  | nil => intro ds _ c hc; cases hc
  | cons a t ih =>
    intro ds h c hc
    rw [List.mapM_cons] at h
    cases ha : pyInt a with
    | none => rw [ha] at h; cases h
    | some d =>
      rw [ha] at h
      cases ht : t.mapM pyInt with
      | none => rw [ht] at h; cases h
      | some ds2 =>
        rcases List.mem_cons.mp hc with hac | hct
        · subst hac
          by_contra hnd
          simp [pyInt, hnd] at ha
        · exact ih ds2 ht c hct

/-- An ASCII digit is not a LIKE metacharacter. -/
theorem digit_not_wildcard (c : Char) (h : c.isDigit = true) :
    ¬(c = '%') ∧ ¬(c = '_') := by
  constructor <;> intro he <;> subst he <;> simp [Char.isDigit] at h

/-- Any string accepted (or rejected) by the checksum without an exception
is wildcard-free: `int(...)` succeeded on every character. -/
theorem noWildcards_of_luhn (x : String) (b : Bool)
    (h : luhn_algorithm x = some b) : noWildcards x = true := by
  unfold luhn_algorithm at h
  cases hm : x.toList.mapM pyInt with
  | none => rw [hm] at h; cases h
  | some ds =>
    have hdig := mapM_pyInt_mem x.toList ds hm
    unfold noWildcards
    rw [List.all_eq_true]
    intro c hc
    have hd := digit_not_wildcard c (hdig c hc)
    simp [hd.1, hd.2]

/-- `luhn_algorithm` computes, on any digit string, exactly the checksum
worded in the specification. -/
theorem luhn_eq_spec (x : String) (ds : List Nat)
    (h : x.toList.mapM pyInt = some ds) :
    luhn_algorithm x = some (is_valid_spec ds) := by
  unfold luhn_algorithm
  rw [h]
  show some ((luhn_transform 1 ds).sum % 10 == 0) = some (is_valid_spec ds)
  rw [is_valid_spec, luhn_transform_sum]

/-- `get_update` with two non-empty card strings: the credit statement runs
first, then the debit statement, and the success string is returned. -/
theorem get_update_run (s : Store) (From toCard : String) (amount : Int)
    (h1 : ¬From = "") (h2 : ¬toCard = "") :
    get_update s From toCard amount =
      ("Success!",
        execStmt (execStmt s (DbStmt.updateAdd toCard amount))
          (DbStmt.updateAdd From (-amount))) := by
  simp [get_update, get_update_script, h1, h2]

/-- Balance read after one UPDATE statement. -/
theorem balance_execStmt (s : Store) (p : String) (d : Int) (card : String) :
    balance (execStmt s (DbStmt.updateAdd p d)) card
      = (balance s card).map
          (fun b => if likeMatch p.toList card.toList then b + d else b) :=
  balance_map_update (fun n => likeMatch p.toList n.toList) d s card

/-- Total balance after one UPDATE statement. -/
theorem storeTotal_execStmt (s : Store) (p : String) (d : Int) :
    storeTotal (execStmt s (DbStmt.updateAdd p d))
      = storeTotal s
        + d * (s.countP (fun r => likeMatch p.toList r.number.toList) : Int) :=
  storeTotal_map_update (fun n => likeMatch p.toList n.toList) d s

/-- An UPDATE statement does not touch the `number` column. -/
theorem execStmt_numbers (s : Store) (stmt : DbStmt) :
    (execStmt s stmt).map (fun r => r.number) = s.map (fun r => r.number) := by
  cases stmt with
  | updateAdd p d =>
    simp only [execStmt, List.map_map, Function.comp_def]
    apply List.map_congr_left
    intro r _
    dsimp only
    split <;> rfl

/-- Transfer branch: the destination equals the session card. -/
theorem transfer_self (s : Store) (card toCard : String) (amount : Int)
    (h : card = toCard) :
    transfer s card toCard amount = Except.ok (TransferOutcome.sameAccount, s) := by
  simp [transfer, h]

/-- Transfer branch: `int()` raises inside the Luhn check. -/
theorem transfer_luhn_exn (s : Store) (card toCard : String) (amount : Int)
    (h1 : ¬card = toCard) (h2 : luhn_algorithm toCard = none) :
    transfer s card toCard amount =
      Except.error (PyExn.valueError "invalid literal for int with base 10") := by
  simp [transfer, h1, h2]

/-- Transfer branch: the destination fails the checksum. -/
theorem transfer_badLuhn (s : Store) (card toCard : String) (amount : Int)
    (h1 : ¬card = toCard) (h2 : luhn_algorithm toCard = some false) :
    transfer s card toCard amount =
      Except.ok (TransferOutcome.mistakeInNumber, s) := by
  simp [transfer, h1, h2]

/-- Transfer branch: the destination does not exist. -/
theorem transfer_noCard (s : Store) (card toCard : String) (amount : Int)
    (h1 : ¬card = toCard) (h2 : luhn_algorithm toCard = some true)
    (h3 : existsCard s toCard = false) :
    transfer s card toCard amount =
      Except.ok (TransferOutcome.noSuchCard, s) := by
  simp [transfer, h1, h2, h3]

/-- Transfer branch: reading the session balance raises because the session
row is gone. -/
theorem transfer_balance_exn (s : Store) (card toCard : String) (amount : Int)
    (h1 : ¬card = toCard) (h2 : luhn_algorithm toCard = some true)
    (h3 : existsCard s toCard = true) (h4 : balance s card = none) :
    transfer s card toCard amount =
      Except.error (PyExn.typeError "NoneType object is not subscriptable") := by
  simp [transfer, h1, h2, h3, h4]

/-- Transfer branch: the amount exceeds the session balance. -/
theorem transfer_notEnough (s : Store) (card toCard : String) (amount b : Int)
    (h1 : ¬card = toCard) (h2 : luhn_algorithm toCard = some true)
    (h3 : existsCard s toCard = true) (h4 : balance s card = some b)
    (h5 : amount > b) :
    transfer s card toCard amount =
      Except.ok (TransferOutcome.notEnoughMoney, s) := by
  simp [transfer, h1, h2, h3, h4, h5]

/-- Transfer branch: all four checks pass and `get_update` runs. -/
theorem transfer_success (s : Store) (card toCard : String) (amount b : Int)
    (h1 : ¬card = toCard) (h2 : luhn_algorithm toCard = some true)
    (h3 : existsCard s toCard = true) (h4 : balance s card = some b)
    (h5 : ¬amount > b) :
    transfer s card toCard amount =
      Except.ok (TransferOutcome.completed (get_update s card toCard amount).1,
                 (get_update s card toCard amount).2) := by
  simp [transfer, h1, h2, h3, h4, h5]

/-- Exhaustive case analysis of the transfer branch. -/
theorem transfer_cases (s : Store) (card toCard : String) (amount : Int) :
    (card = toCard ∧
      transfer s card toCard amount = Except.ok (TransferOutcome.sameAccount, s))
  ∨ (¬card = toCard ∧ luhn_algorithm toCard = none ∧
      transfer s card toCard amount =
        Except.error (PyExn.valueError "invalid literal for int with base 10"))
  ∨ (¬card = toCard ∧ luhn_algorithm toCard = some false ∧
      transfer s card toCard amount =
        Except.ok (TransferOutcome.mistakeInNumber, s))
  ∨ (¬card = toCard ∧ luhn_algorithm toCard = some true ∧
      existsCard s toCard = false ∧
      transfer s card toCard amount =
        Except.ok (TransferOutcome.noSuchCard, s))
  ∨ (¬card = toCard ∧ luhn_algorithm toCard = some true ∧
      existsCard s toCard = true ∧ balance s card = none ∧
      transfer s card toCard amount =
        Except.error (PyExn.typeError "NoneType object is not subscriptable"))
  ∨ (∃ b, ¬card = toCard ∧ luhn_algorithm toCard = some true ∧
      existsCard s toCard = true ∧ balance s card = some b ∧ amount > b ∧
      transfer s card toCard amount =
        Except.ok (TransferOutcome.notEnoughMoney, s))
  ∨ (∃ b, ¬card = toCard ∧ luhn_algorithm toCard = some true ∧
      existsCard s toCard = true ∧ balance s card = some b ∧ ¬amount > b ∧
      transfer s card toCard amount =
        Except.ok (TransferOutcome.completed (get_update s card toCard amount).1,
                   (get_update s card toCard amount).2)) := by
  by_cases h1 : card = toCard
  · exact Or.inl ⟨h1, transfer_self s card toCard amount h1⟩
  cases h2 : luhn_algorithm toCard with
  | none =>
    exact Or.inr (Or.inl ⟨h1, rfl, transfer_luhn_exn s card toCard amount h1 h2⟩)
  | some ok =>
    cases ok with
    | false =>
      exact Or.inr (Or.inr (Or.inl ⟨h1, rfl,
        transfer_badLuhn s card toCard amount h1 h2⟩))
    | true =>
      cases h3 : existsCard s toCard with
      | false =>
        exact Or.inr (Or.inr (Or.inr (Or.inl ⟨h1, rfl, rfl,
          transfer_noCard s card toCard amount h1 h2 h3⟩)))
      | true =>
        cases h4 : balance s card with
        | none =>
          exact Or.inr (Or.inr (Or.inr (Or.inr (Or.inl ⟨h1, rfl, rfl, rfl,
            transfer_balance_exn s card toCard amount h1 h2 h3 h4⟩))))
        | some b =>
          by_cases h5 : amount > b
          · exact Or.inr (Or.inr (Or.inr (Or.inr (Or.inr (Or.inl ⟨b, h1, rfl, rfl,
              rfl, h5, transfer_notEnough s card toCard amount b h1 h2 h3 h4 h5⟩)))))
          · exact Or.inr (Or.inr (Or.inr (Or.inr (Or.inr (Or.inr ⟨b, h1, rfl, rfl,
              rfl, h5, transfer_success s card toCard amount b h1 h2 h3 h4 h5⟩)))))

/-- Row counts by number-predicate are unchanged by an UPDATE statement. -/
theorem countP_number_execStmt (s : Store) (stmt : DbStmt) (f : String → Bool) :
    (execStmt s stmt).countP (fun r => f r.number)
      = s.countP (fun r => f r.number) := by
  cases stmt with
  | updateAdd p d =>
    rw [execStmt, List.countP_map]
    apply List.countP_congr
    intro r _
    dsimp only [Function.comp]
    split <;> exact Iff.rfl

/-- Fixture card numbers.  `cardB` passes the checksum; `cardA` is any card
number a session might hold. -/
def cardA : String := "4000000000000010"

def cardB : String := "4000000000000002"

/-- Fixture table: A holds 500, B holds 0. -/
def demoStore : Store :=
  [{ number := cardA, pin := "1111", balance := 500 },
   { number := cardB, pin := "2222", balance := 0 }]

/-- The fixture table after a 200 transfer from A to B. -/
def demoAfter : Store :=
  [{ number := cardA, pin := "1111", balance := 300 },
   { number := cardB, pin := "2222", balance := 200 }]

/-- Fixture table with A at 300, for the insufficient-funds instance. -/
def demoStore300 : Store :=
  [{ number := cardA, pin := "1111", balance := 300 },
   { number := cardB, pin := "2222", balance := 0 }]

/-- Fixture single-row table with a nonzero balance. -/
def closeDemo : Store := [{ number := cardB, pin := "0000", balance := 100 }]

/-! ### Claims -/

/-- C1: For every transfer request, the four validation checks are applied
in the order self-transfer, checksum, existence, insufficient funds; each
check short-circuits (each outcome is reached exactly under the conjunction
of all earlier checks passing and its own failing), and whenever any check
rejects, the store is returned unchanged. -/
theorem C1_transfer_validation_order (s : Store) (card toCard : String)
    (amount : Int) :
    (transfer s card toCard amount = Except.ok (TransferOutcome.sameAccount, s) ↔
      toCard = card)
  ∧ (transfer s card toCard amount
        = Except.ok (TransferOutcome.mistakeInNumber, s) ↔
      toCard ≠ card ∧ luhn_algorithm toCard = some false)
  ∧ (transfer s card toCard amount = Except.ok (TransferOutcome.noSuchCard, s) ↔
      toCard ≠ card ∧ luhn_algorithm toCard = some true ∧
        existsCard s toCard = false)
  ∧ (transfer s card toCard amount
        = Except.ok (TransferOutcome.notEnoughMoney, s) ↔
      toCard ≠ card ∧ luhn_algorithm toCard = some true ∧
        existsCard s toCard = true ∧ ∃ b, balance s card = some b ∧ amount > b)
  ∧ (∀ out s2, transfer s card toCard amount = Except.ok (out, s2) →
      (∀ msg, out ≠ TransferOutcome.completed msg) → s2 = s) := by
  refine ⟨⟨?_, ?_⟩, ⟨?_, ?_⟩, ⟨?_, ?_⟩, ⟨?_, ?_⟩, ?_⟩
  · intro h
    rcases transfer_cases s card toCard amount with ⟨h1, he⟩ | ⟨h1, h2, he⟩ |
      ⟨h1, h2, he⟩ | ⟨h1, h2, h3, he⟩ | ⟨h1, h2, h3, h4, he⟩ |
      ⟨b, h1, h2, h3, h4, h5, he⟩ | ⟨b, h1, h2, h3, h4, h5, he⟩ <;>
      rw [he] at h <;> first | exact h1.symm | simp at h
  · intro h
    exact transfer_self s card toCard amount h.symm
  · intro h
    rcases transfer_cases s card toCard amount with ⟨h1, he⟩ | ⟨h1, h2, he⟩ |
      ⟨h1, h2, he⟩ | ⟨h1, h2, h3, he⟩ | ⟨h1, h2, h3, h4, he⟩ |
      ⟨b, h1, h2, h3, h4, h5, he⟩ | ⟨b, h1, h2, h3, h4, h5, he⟩ <;>
      rw [he] at h <;>
      first | exact ⟨fun hh => h1 hh.symm, h2⟩ | simp at h
  · intro h
    exact transfer_badLuhn s card toCard amount (fun hh => h.1 hh.symm) h.2
  · intro h
    rcases transfer_cases s card toCard amount with ⟨h1, he⟩ | ⟨h1, h2, he⟩ |
      ⟨h1, h2, he⟩ | ⟨h1, h2, h3, he⟩ | ⟨h1, h2, h3, h4, he⟩ |
      ⟨b, h1, h2, h3, h4, h5, he⟩ | ⟨b, h1, h2, h3, h4, h5, he⟩ <;>
      rw [he] at h <;>
      first | exact ⟨fun hh => h1 hh.symm, h2, h3⟩ | simp at h
  · intro h
    exact transfer_noCard s card toCard amount (fun hh => h.1 hh.symm) h.2.1 h.2.2
  · intro h
    rcases transfer_cases s card toCard amount with ⟨h1, he⟩ | ⟨h1, h2, he⟩ |
      ⟨h1, h2, he⟩ | ⟨h1, h2, h3, he⟩ | ⟨h1, h2, h3, h4, he⟩ |
      ⟨b, h1, h2, h3, h4, h5, he⟩ | ⟨b, h1, h2, h3, h4, h5, he⟩ <;>
      rw [he] at h <;>
      first | exact ⟨fun hh => h1 hh.symm, h2, h3, b, h4, h5⟩ | simp at h
  · intro h
    obtain ⟨hne, h2, h3, b, h4, h5⟩ := h
    exact transfer_notEnough s card toCard amount b (fun hh => hne hh.symm) h2 h3 h4 h5
  · intro out s2 h hnc
    rcases transfer_cases s card toCard amount with ⟨h1, he⟩ | ⟨h1, h2, he⟩ |
      ⟨h1, h2, he⟩ | ⟨h1, h2, h3, he⟩ | ⟨h1, h2, h3, h4, he⟩ |
      ⟨b, h1, h2, h3, h4, h5, he⟩ | ⟨b, h1, h2, h3, h4, h5, he⟩ <;>
      rw [he] at h
    · injection h with h9
      injection h9 with ho hs
      exact hs.symm
    · exact Except.noConfusion h
    · injection h with h9
      injection h9 with ho hs
      exact hs.symm
    · injection h with h9
      injection h9 with ho hs
      exact hs.symm
    · exact Except.noConfusion h
    · injection h with h9
      injection h9 with ho hs
      exact hs.symm
    · injection h with h9
      injection h9 with ho hs
      exact absurd ho.symm (hnc _)

/-- C1 witness: the self-transfer instance `transfer(A, A, 1)` is rejected
with the table unchanged. -/
theorem C1_transfer_validation_order_witness :
    transfer demoStore cardA cardA 1
      = Except.ok (TransferOutcome.sameAccount, demoStore) :=
  (C1_transfer_validation_order demoStore cardA cardA 1).1.mpr rfl

/-- C2: a successful transfer of `amount` from A to B debits A by exactly
`amount` and credits B by exactly `amount`. -/
theorem C2_successful_transfer_moves_amount
    (s s2 : Store) (A B msg : String) (amount bA bB : Int)
    (hAw : noWildcards A = true) (hA0 : ¬A = "") (hB0 : ¬B = "")
    (hbA : balance s A = some bA) (hbB : balance s B = some bB)
    (hAB : ¬A = B)
    (htr : transfer s A B amount
      = Except.ok (TransferOutcome.completed msg, s2)) :
    balance s2 A = some (bA - amount) ∧ balance s2 B = some (bB + amount) := by
  rcases transfer_cases s A B amount with ⟨h1, he⟩ | ⟨h1, h2, he⟩ |
    ⟨h1, h2, he⟩ | ⟨h1, h2, h3, he⟩ | ⟨h1, h2, h3, h4, he⟩ |
    ⟨b, h1, h2, h3, h4, h5, he⟩ | ⟨b, h1, h2, h3, h4, h5, he⟩ <;>
    rw [he] at htr
  · exact absurd htr (by simp)
  · exact Except.noConfusion htr
  · exact absurd htr (by simp)
  · exact absurd htr (by simp)
  · exact Except.noConfusion htr
  · exact absurd htr (by simp)
  · injection htr with h9
    injection h9 with ho hs2
    injection ho with hmsg
    subst hs2
    have hBw : noWildcards B = true := noWildcards_of_luhn B true h2
    rw [get_update_run s A B amount hA0 hB0]
    dsimp only
    constructor
    · rw [balance_execStmt, balance_execStmt, hbA]
      rw [likeMatch_beq B A hBw, likeMatch_beq A A hAw]
      have hABne : (A == B) = false := by
        rw [beq_eq_false_iff_ne]
        exact hAB
      simp [hABne, sub_eq_add_neg]
    · rw [balance_execStmt, balance_execStmt, hbB]
      rw [likeMatch_beq B B hBw, likeMatch_beq A B hAw]
      have hBAne : (B == A) = false := by
        rw [beq_eq_false_iff_ne]
        exact fun hh => hAB hh.symm
      simp [hBAne]

/-- C2 witness: with A at 500 and B at 0, `transfer(A, B, 200)` yields
A at 300 and B at 200. -/
theorem C2_successful_transfer_moves_amount_witness :
    balance demoAfter cardA = some 300 ∧ balance demoAfter cardB = some 200 := by
  have h := C2_successful_transfer_moves_amount demoStore demoAfter cardA cardB
    "Success!" 200 500 0 (by decide) (by decide) (by decide) (by decide)
    (by decide) (by decide) (by decide)
  norm_num at h
  exact h

/-- C3 counterexample: at `From = cardA`, `to = cardB`, `amount = 5`, the
statement sequence of `get_update` is not debit-first: its first UPDATE
targets the destination. -/
theorem C3_counterexample_not_debit_first :
    get_update_script cardA cardB 5
      ≠ [DbStmt.updateAdd cardA (-5), DbStmt.updateAdd cardB 5] := by
  decide

/-- C3 amended: when all checks pass, the transfer performs the credit
before the debit: `get_update` first adds `amount` to rows matching the
destination and then subtracts `amount` from rows matching the session
card. -/
theorem C3_credit_then_debit (s : Store) (From toCard : String) (amount : Int)
    (h1 : ¬From = "") (h2 : ¬toCard = "") :
    get_update_script From toCard amount
      = [DbStmt.updateAdd toCard amount, DbStmt.updateAdd From (-amount)]
    ∧ (get_update s From toCard amount).2
        = execStmt (execStmt s (DbStmt.updateAdd toCard amount))
            (DbStmt.updateAdd From (-amount)) := by
  refine ⟨rfl, ?_⟩
  rw [get_update_run s From toCard amount h1 h2]

/-- C3 witness: the credit-then-debit factoring at a concrete input. -/
theorem C3_credit_then_debit_witness :
    (get_update demoStore cardA cardB 5).2
      = execStmt (execStmt demoStore (DbStmt.updateAdd cardB 5))
          (DbStmt.updateAdd cardA (-5)) :=
  (C3_credit_then_debit demoStore cardA cardB 5 (by decide) (by decide)).2

/-- C5: on every digit string (a string whose characters all convert under
`int`), the checksum validator returns exactly the specification checksum:
odd positions doubled with 9 subtracted above 9, summed with the even
positions, valid iff divisible by 10; as a Lean function it is deterministic
and total on such strings. -/
theorem C5_luhn_is_spec_checksum (x : String) (ds : List Nat)
    (h : x.toList.mapM pyInt = some ds) :
    luhn_algorithm x = some (is_valid_spec ds) ∧
      (luhn_algorithm x = some true ↔ luhnSpecSum ds % 10 = 0) := by
  have he := luhn_eq_spec x ds h
  refine ⟨he, ?_⟩
  rw [he]
  simp [is_valid_spec]

/-- C5 witness: the checksum applied to a concrete 16-digit string. -/
theorem C5_luhn_is_spec_checksum_witness :
    luhn_algorithm "4000000000000002" = some true :=
  (C5_luhn_is_spec_checksum "4000000000000002"
    [4, 0, 0, 0, 0, 0, 0, 0, 0, 0, 0, 0, 0, 0, 0, 2] (by decide)).2.mpr (by decide)

/-- C4 counterexample: closing the single account of `closeDemo`, which
holds balance 100, changes the total system balance (100 before, 0 after),
so account closure does not preserve the total. -/
theorem C4_counterexample_close_changes_total :
    storeTotal (close_account closeDemo cardB) ≠ storeTotal closeDemo := by
  decide

/-- C4 amended: every operation other than deposit and account closure —
account creation (which the broken INSERT aborts), authentication, balance
inquiry, transfer whether rejected, crashed or successful, and logout —
preserves the total system balance over a well-formed store; account
closure instead removes the balance of the closed account from the total. -/
theorem C4_total_preserved_except_deposit_and_close (s : Store) (op : Op)
    (hwf : storeWF s) : storeTotal (applyOp s op) = storeTotal s := by
  cases op with
  | create card pin =>
    have hdb : database s card pin = Except.error "3 values for 2 columns" := rfl
    simp [applyOp, hdb]
  | auth card pin => rfl
  | balanceInquiry card => rfl
  | logout => rfl
  | transferOp card toCard amount =>
    rcases transfer_cases s card toCard amount with ⟨h1, he⟩ | ⟨h1, h2, he⟩ |
      ⟨h1, h2, he⟩ | ⟨h1, h2, h3, he⟩ | ⟨h1, h2, h3, h4, he⟩ |
      ⟨b, h1, h2, h3, h4, h5, he⟩ | ⟨b, h1, h2, h3, h4, h5, he⟩ <;>
      simp only [applyOp, he]
    · by_cases hF : card = ""
      · simp [get_update, hF]
      by_cases hT : toCard = ""
      · simp [get_update, hT]
      rw [get_update_run s card toCard amount hF hT]
      dsimp only
      rw [storeTotal_execStmt,
        countP_number_execStmt s (DbStmt.updateAdd toCard amount)
          (fun n => likeMatch card.toList n.toList),
        storeTotal_execStmt]
      have hTw : noWildcards toCard = true := noWildcards_of_luhn toCard true h2
      have hmemTo : ∃ r ∈ s, r.number = toCard := by
        unfold existsCard at h3
        rw [List.find?_isSome] at h3
        obtain ⟨r, hr, hp⟩ := h3
        exact ⟨r, hr, by simpa using hp⟩
      have hmemFrom : ∃ r ∈ s, r.number = card := by
        unfold balance at h4
        cases hf : s.find? (fun r => r.number == card) with
        | none => rw [hf] at h4; cases h4
        | some r =>
          exact ⟨r, List.mem_of_find?_eq_some hf,
            by simpa using List.find?_some hf⟩
      obtain ⟨r0, hr0, hr0n⟩ := hmemFrom
      have hFw : noWildcards card = true := hr0n ▸ hwf.2 r0 hr0
      have hcTo : s.countP (fun r => likeMatch toCard.toList r.number.toList)
          = s.countP (fun r => r.number == toCard) :=
        List.countP_congr (by
          intro r hr
          rw [likeMatch_beq toCard r.number hTw])
      have hcFrom : s.countP (fun r => likeMatch card.toList r.number.toList)
          = s.countP (fun r => r.number == card) :=
        List.countP_congr (by
          intro r hr
          rw [likeMatch_beq card r.number hFw])
      rw [hcTo, hcFrom, countP_number_eq_one s toCard hwf.1 hmemTo,
        countP_number_eq_one s card hwf.1 ⟨r0, hr0, hr0n⟩]
      push_cast
      ring

/-- C4 witness: a concrete successful transfer preserves the total. -/
theorem C4_total_preserved_witness :
    storeTotal (applyOp demoStore (Op.transferOp cardA cardB 200))
      = storeTotal demoStore :=
  C4_total_preserved_except_deposit_and_close demoStore
    (Op.transferOp cardA cardB 200) (by decide)

/-- C6: every card the generator loop accepts is built from the issuer
digits `400000` followed by the eleven random draws, passes the checksum —
and has 17 characters, not 16. -/
theorem C6_generate_card_has_17_digits (cardDraws pinDraws : List Nat)
    (hlen : cardDraws.length = 11) (card pinStr : String)
    (hgen : generate_attempt cardDraws pinDraws = some (card, pinStr)) :
    card.length = 17 ∧ luhn_algorithm card = some true ∧
      card.toList.take 6 = "400000".toList := by
  unfold generate_attempt at hgen
  dsimp only at hgen
  split at hgen
  case isTrue hl =>
    injection hgen with hpair
    injection hpair with hcard hpin
    subst hcard
    refine ⟨?_, hl, ?_⟩
    · rw [String.length_append]
      show 6 + (String.mk (cardDraws.map digitChar)).length = 17
      have : (String.mk (cardDraws.map digitChar)).length
          = (cardDraws.map digitChar).length := rfl
      rw [this, List.length_map, hlen]
    · show ("400000".data ++ (String.mk (cardDraws.map digitChar)).data).take 6
        = "400000".toList
      rw [List.take_append_of_le_length (by decide)]
      decide
  case isFalse hl => cases hgen

/-- C6 witness: the accepted draw `[0,...,0,1]` yields the 17-character
card `40000000000000001`. -/
theorem C6_generate_card_has_17_digits_witness :
    ("40000000000000001" : String).length = 17 ∧
      luhn_algorithm "40000000000000001" = some true ∧
      ("40000000000000001" : String).toList.take 6 = "400000".toList :=
  C6_generate_card_has_17_digits [0, 0, 0, 0, 0, 0, 0, 0, 0, 0, 1] [0, 0, 0, 0]
    (by decide) "40000000000000001" "0000" (by decide)

/-- C7: the session reaches Authenticated exactly when the store holds a
record with exactly the supplied card number and PIN; on any other pair the
session reports the authentication error and never reaches Authenticated. -/
theorem C7_authenticated_iff_verify (s : Store) (card pin : String) :
    (accountEnter s card pin = Except.ok SessionState.authenticated ↔
      check_credentials s card pin = true)
  ∧ (check_credentials s card pin = true ↔
      ∃ r ∈ s, r.number = card ∧ r.pin = pin)
  ∧ (check_credentials s card pin = false →
      accountEnter s card pin = Except.error wrongCredentialsMsg) := by
  refine ⟨?_, ?_, ?_⟩
  · constructor
    · intro h
      by_contra hc
      rw [Bool.not_eq_true] at hc
      simp [accountEnter, hc] at h
    · intro h
      simp [accountEnter, h]
  · unfold check_credentials
    rw [List.find?_isSome]
    simp only [Bool.and_eq_true, beq_iff_eq]
  · intro h
    simp [accountEnter, h]

/-- C7 witness: a wrong PIN for an existing card raises the authentication
error instead of authenticating. -/
theorem C7_authenticated_iff_verify_witness :
    accountEnter demoStore cardA "9999" = Except.error wrongCredentialsMsg :=
  (C7_authenticated_iff_verify demoStore cardA "9999").2.2 (by decide)

/-- C8: evaluating `BankingSystem.database` at a concrete card/PIN pair (as
at every other input): its INSERT supplies 3 value placeholders for the 2
named columns, so SQLite raises OperationalError and no record with
balance 0 is ever inserted. -/
theorem C8_create_always_errors :
    database demoStore "4000000000000044" "1234"
      = Except.error "3 values for 2 columns" := rfl

/-- C9 counterexample: with the non-digit destination `"not-a-card"`, the
transfer branch does not produce the invalid-card-number result value: the
`int` conversion inside the checksum raises `ValueError`, an exceptional
outcome that aborts the session. -/
theorem C9_counterexample_nondigit_destination_raises :
    transfer demoStore cardA "not-a-card" 1
      = Except.error (PyExn.valueError "invalid literal for int with base 10") := by
  decide

/-- C9 amended: a destination made of digits that fails the checksum is
rejected with the invalid-card-number outcome as an ordinary result value
and the store unchanged; a destination containing a non-digit character
instead raises `ValueError` out of the checksum (still before any
mutation), aborting the session. -/
theorem C9_invalid_destination (s : Store) (card toCard : String) (amount : Int)
    (hne : ¬card = toCard) :
    (luhn_algorithm toCard = some false →
      transfer s card toCard amount
        = Except.ok (TransferOutcome.mistakeInNumber, s))
  ∧ (luhn_algorithm toCard = none →
      transfer s card toCard amount
        = Except.error (PyExn.valueError "invalid literal for int with base 10")) :=
  ⟨fun h => transfer_badLuhn s card toCard amount hne h,
   fun h => transfer_luhn_exn s card toCard amount hne h⟩

/-- C9 witness: a digit destination failing the checksum is rejected as an
ordinary result with the table untouched. -/
theorem C9_invalid_destination_witness :
    transfer demoStore cardA "4000002222222222" 1
      = Except.ok (TransferOutcome.mistakeInNumber, demoStore) :=
  (C9_invalid_destination demoStore cardA "4000002222222222" 1 (by decide)).1
    (by decide)

/-- C10: for every integer amount, zero and negative included, the deposit
primitive adds the amount to the balance of the session account with no
validation and always reports success. -/
theorem C10_deposit_unconditional (s : Store) (card : String) (delta b : Int)
    (hb : balance s card = some b) :
    (add_balance s card delta).1 = "Income was added!" ∧
      balance (add_balance s card delta).2 card = some (b + delta) := by
  refine ⟨rfl, ?_⟩
  show balance (s.map (fun r =>
    if r.number == card then { r with balance := r.balance + delta } else r))
    card = some (b + delta)
  rw [balance_map_update (fun n => n == card) delta s card, hb]
  simp

/-- C10 witness: a negative deposit of −150 on a balance of 100 succeeds
and drives the balance to −50, below zero. -/
theorem C10_deposit_unconditional_witness :
    (add_balance closeDemo cardB (-150)).1 = "Income was added!" ∧
      balance (add_balance closeDemo cardB (-150)).2 cardB = some (-50) ∧
      (-50 : Int) < 0 := by
  have h := C10_deposit_unconditional closeDemo cardB (-150) 100 (by decide)
  refine ⟨h.1, ?_, by norm_num⟩
  rw [h.2]
  norm_num

end Banking
